import Mathlib

/-
Verification development for the UnifiedGUI robot controls page
(src/UnifiedGUI/frontend/src/app/controls/page.tsx) and the home-joint
configuration popup (src/UnifiedGUI/frontend/src/components/JointConfigPopup.tsx).

Modelling conventions (shallow embedding):
- React component state is an explicit record (PageState, JointConfigState);
  each handler becomes a pure function from state (plus the event data it
  reads) to new state and/or a list of emitted backend requests (Action).
- JavaScript string-to-number conversions (parseFloat, parseInt) are
  abstracted at the boundary: a text input is represented by its parse
  outcome (Option of a rational; none stands for NaN), and JSON.parse by an
  optional JSON value (none stands for a thrown SyntaxError).
- Numbers are rationals; the handlers under study only compare, clamp and
  copy them, so exact arithmetic is faithful.
- JavaScript Sets (pressedKeys, activeSpeedLKeys) are duplicate-free lists
  in insertion order, matching Set iteration order; the spread-index
  expression taking the first element of a Set becomes List.head.
-/

namespace ControlsPage

/-- JSON values as produced by a successful JSON.parse call. Object field
lists carry the final key-value pairs (JSON.parse keeps the last duplicate
key, so keys are effectively unique). -/
inductive JValue where
  | null
  | bool (b : Bool)
  | num (q : ℚ)
  | str (s : String)
  | arr (elems : List JValue)
  | obj (fields : List (String × JValue))

/-- Abstraction of the conicalSprayPaths textarea content: whether its
trimmed text is empty, and the outcome of JSON.parse on it (none when parse
throws). A whitespace-only string both trims to empty and fails to parse. -/
structure ConicalConfig where
  trimEmpty : Bool
  parsed : Option JValue

/-- Check from isValidConicalPaths that one path element is an object whose
field at the given key is a number. In the source this is the conjunction
of typeof path being object, key membership, and typeof of the field being
number; a null element makes the in-operator throw inside the try block,
which also yields false overall, so returning false for non-objects here is
observationally the same. -/
def hasNumField (path : JValue) (key : String) : Bool :=
  match path with
  | JValue.obj fields =>
    match fields.lookup key with
    | some (JValue.num _) => true
    | _ => false
  | _ => false

/-- Embedding of isValidConicalPaths (controls page, lines 77 to 94): empty
trimmed text is invalid; a parse failure is invalid; otherwise the value
must be an array of 1 to 4 elements, each an object with numeric fields
tilt, rev and cycle. -/
def isValidConicalPaths (cfg : ConicalConfig) : Bool :=
  if cfg.trimEmpty then false
  else
    match cfg.parsed with
    | some (JValue.arr paths) =>
      if paths.length = 0 ∨ paths.length > 4 then false
      else paths.all (fun path =>
        hasNumField path "tilt" && hasNumField path "rev" && hasNumField path "cycle")
    | _ => false

/-- Abstraction of the coldSprayParams record of text fields: each field is
represented by its parse outcome (parseFloat for the first three, parseInt
for iterations; none stands for NaN). -/
structure ColdSprayParams where
  acceleration : Option ℚ
  velocity : Option ℚ
  blendRadius : Option ℚ
  iterations : Option ℤ
deriving DecidableEq, Repr

/-- Embedding of isValidSprayParams (controls page, lines 64 to 74). -/
def isValidSprayParams (p : ColdSprayParams) : Bool :=
  match p.acceleration, p.velocity, p.blendRadius, p.iterations with
  | some acc, some vel, some blend, some iter =>
    decide (acc > 0) && decide (vel > 0) && decide (blend ≥ 0) && decide (iter > 0)
  | _, _, _, _ => false

/-- Disabled condition of the EXECUTE BLENDED SPRAY PATTERN button
(controls page, line 1480). -/
def coldSprayButtonDisabled (toolAligning : Bool) (p : ColdSprayParams) : Bool :=
  toolAligning || !(isValidSprayParams p)

/-- Backend requests emitted by the page handlers. A move action carries the
payload of the ROBOT_MOVE request body: direction, distance, speed_percent
and base_speed. -/
inductive Action where
  | stop
  | move (direction : String) (distance speedPercent baseSpeed : ℚ)
  | conicalSpray (cfg : ConicalConfig)
  | coldSpray (p : ColdSprayParams)

/-- React state of the controls page relevant to the handlers under study. -/
structure PageState where
  robotConnected : Bool
  robotStatus : String
  robotPosition : String
  thermalTracking : Bool
  baseSpeed : ℚ
  globalSpeedPercent : ℚ
  pressedKeys : List String
  activeSpeedLKeys : List String
  processedKeys : List String
  mouseHoldDirection : Option String
  toolAligning : Bool
deriving DecidableEq, Repr

/-- Requests emitted by one call of stopRobot (controls page, lines 477 to
500): an immediate ROBOT_STOP request plus a redundant second one after a
10 ms timeout. stopRobot performs no state update. -/
def stopRobotActions : List Action :=
  [Action.stop, Action.stop]

/-- State effect of stopRobot: the function calls no state setter, so the
page state is unchanged. -/
def stopRobotState (s : PageState) : PageState := s

/-- Embedding of moveRobot (controls page, lines 453 to 475): one
ROBOT_MOVE request carrying the direction, the distance argument and the
speed settings read from the current state. -/
def moveRobotActions (direction : String) (distance : ℚ) (s : PageState) : List Action :=
  [Action.move direction distance s.globalSpeedPercent s.baseSpeed]

/-- Embedding of executeConicalSprayPaths (controls page, lines 725 to
757): no request when the robot is not connected, none when the
configuration is invalid, otherwise one ROBOT_CONICAL_SPRAY request. -/
def executeConicalSprayPaths (robotConnected : Bool) (cfg : ConicalConfig) : List Action :=
  if !robotConnected then []
  else if !(isValidConicalPaths cfg) then []
  else [Action.conicalSpray cfg]

/-- Embedding of executeColdSprayPattern (controls page, lines 657 to 687):
no request when the robot is not connected, otherwise one ROBOT_COLD_SPRAY
request with the parsed parameters. The function itself does not re-check
validity; the validity gate is the disabled condition of its button. -/
def executeColdSprayPattern (robotConnected : Bool) (p : ColdSprayParams) : List Action :=
  if !robotConnected then []
  else [Action.coldSpray p]

/-- Lexicographic byte-wise comparison of character lists, the order used by
the JavaScript default Array.prototype.sort on the single-letter key names
(code-unit order coincides with code-point order on these keys). -/
def charListLe : List Char → List Char → Bool
  | [], _ => true
  | _ :: _, [] => false
  | a :: as, b :: bs =>
    if a.val < b.val then true
    else if b.val < a.val then false
    else charListLe as bs

/-- String comparison backing sortKeys. -/
def keyLe (a b : String) : Bool := charListLe a.data b.data

/-- Insertion step of sortKeys. -/
def insertSorted (x : String) : List String → List String
  | [] => [x]
  | y :: ys => if keyLe x y then x :: y :: ys else y :: insertSorted x ys

/-- Sorting used by the speedL effect to compare the current and active key
sets (the source converts both sets to sorted arrays before comparing). -/
def sortKeys (l : List String) : List String := l.foldr insertSorted []

/-- The six continuous-movement keys (controls page, line 138). -/
def speedLKeys : List String := ["w", "s", "a", "d", "q", "e"]

/-- Embedding of sendSpeedLCommand (controls page, lines 167 to 188): the
moveRobot call selected by the primary held key, always with distance 0.1. -/
def sendSpeedLCommand (primaryKey : String) (s : PageState) : List Action :=
  if primaryKey = "w" then moveRobotActions "z+" (1/10) s
  else if primaryKey = "s" then moveRobotActions "z-" (1/10) s
  else if primaryKey = "a" then moveRobotActions "y-" (1/10) s
  else if primaryKey = "d" then moveRobotActions "y+" (1/10) s
  else if primaryKey = "q" then moveRobotActions "x+" (1/10) s
  else if primaryKey = "e" then moveRobotActions "x-" (1/10) s
  else []

/-- Result of one run of the speedL keys effect: the requests sent
synchronously, the new activeSpeedLKeys value, and the key whose command
the 150 ms interval keeps re-sending (none when the interval is cleared). -/
structure SpeedLResult where
  actions : List Action
  newActiveSpeedLKeys : List String
  intervalKey : Option String

/-- Embedding of the speedL keys effect (controls page, lines 137 to 199).
The current speedL keys are the pressed keys filtered to speedLKeys;
keysChanged is the comparison of the sorted current and active arrays
(length mismatch or any elementwise mismatch, which on lists is exactly
inequality). On a change with no speedL key held and some key previously
active, stopRobot runs; on a change with keys held and the robot connected,
the continuous command for the primary (first) key starts. The effect reads
robotConnected but never reads thermalTracking. -/
def speedLEffect (s : PageState) : SpeedLResult :=
  let currentSpeedLKeys := s.pressedKeys.filter (fun k => speedLKeys.contains k)
  let keysChanged := sortKeys currentSpeedLKeys ≠ sortKeys s.activeSpeedLKeys
  if keysChanged then
    match currentSpeedLKeys with
    | [] =>
      if !s.activeSpeedLKeys.isEmpty then
        { actions := stopRobotActions
          newActiveSpeedLKeys := currentSpeedLKeys
          intervalKey := none }
      else
        { actions := []
          newActiveSpeedLKeys := currentSpeedLKeys
          intervalKey := none }
    | primaryKey :: _ =>
      if s.robotConnected then
        { actions := sendSpeedLCommand primaryKey s
          newActiveSpeedLKeys := currentSpeedLKeys
          intervalKey := some primaryKey }
      else
        { actions := []
          newActiveSpeedLKeys := currentSpeedLKeys
          intervalKey := none }
  else
    { actions := []
      newActiveSpeedLKeys := s.activeSpeedLKeys
      intervalKey := none }

/-- Embedding of the mouse hold effect (controls page, lines 202 to 224):
while a direction is held and the robot is connected, moveRobot with
distance 0.1 runs immediately (and every 150 ms after); otherwise nothing
is sent. The effect never reads thermalTracking. -/
def mouseHoldEffect (s : PageState) : List Action :=
  match s.mouseHoldDirection with
  | some direction =>
    if s.robotConnected then moveRobotActions direction (1/10) s else []
  | none => []

/-- Embedding of stopMouseHold (controls page, lines 447 to 451): clear the
held direction and call stopRobot. Returns the new mouseHoldDirection and
the emitted requests. -/
def stopMouseHold : Option String × List Action :=
  (none, stopRobotActions)

/-- The keys handled by the WASD branch of the key handlers (controls page,
line 323). -/
def movementKeys : List String :=
  ["w", "s", "a", "d", "q", "e", "i", "k", "j", "l", "u", "o", "r", "f", "t", "g", "y", "h"]

/-- Data of a keydown or keyup DOM event read by the handlers. -/
structure KeyEvent where
  key : String
  keyRepeat : Bool

/-- What one call of handleKeyDown does, in order. -/
inductive KeyAction where
  | openSettings
  | invokeStopRobot
  | addPressedKey (k : String)
  | removePressedKey (k : String)

/-- Embedding of handleKeyDown (controls page, lines 309 to 330):
F1 opens the settings; the spacebar branch runs next with no guard on
connection, tracking or focus and calls stopRobot; only the final branch
(movement keys) is guarded by robotConnected and by the focused element not
being an INPUT or TEXTAREA. activeElementTag is the tag name of
document.activeElement. -/
def handleKeyDown (robotConnected : Bool) (activeElementTag : String) (ev : KeyEvent) :
    List KeyAction :=
  if ev.key = "F1" then [KeyAction.openSettings]
  else if ev.key = " " then [KeyAction.invokeStopRobot]
  else if robotConnected ∧ activeElementTag ≠ "INPUT" ∧ activeElementTag ≠ "TEXTAREA" then
    let key := ev.key.toLower
    if movementKeys.contains key ∧ ev.keyRepeat = false then
      [KeyAction.addPressedKey key]
    else []
  else []

/-- Embedding of handleKeyUp (controls page, lines 332 to 347). -/
def handleKeyUp (robotConnected : Bool) (activeElementTag : String) (ev : KeyEvent) :
    List KeyAction :=
  if robotConnected ∧ activeElementTag ≠ "INPUT" ∧ activeElementTag ≠ "TEXTAREA" then
    let key := ev.key.toLower
    if movementKeys.contains key then [KeyAction.removePressedKey key] else []
  else []

/-- Embedding of toggleThermalTracking (controls page, lines 426 to 439):
the request body carries the negated flag; only a response with ok status
updates the state, to the negation of the previous value; a failed request
or error leaves the state unchanged. -/
def toggleThermalTracking (responseOk : Bool) (s : PageState) : PageState :=
  if responseOk then { s with thermalTracking := !s.thermalTracking } else s

/-- Embedding of disconnectRobot (controls page, lines 377 to 390): on an
ok response the connection flag, status text and thermal tracking flag are
reset; otherwise the state is unchanged. -/
def disconnectRobot (responseOk : Bool) (s : PageState) : PageState :=
  if responseOk then
    { s with robotConnected := false
             robotStatus := "DISCONNECTED"
             thermalTracking := false }
  else s

/-- Embedding of the key-clearing effect (controls page, lines 299 to 305):
whenever robotConnected is false, the pressed, active and processed key
sets are emptied. -/
def clearKeysEffect (s : PageState) : PageState :=
  if !s.robotConnected then
    { s with pressedKeys := []
             activeSpeedLKeys := []
             processedKeys := [] }
  else s

/-- One change event of the Base Speed number input, abstracted at the
parseFloat boundary: the handler first tests literally for the empty string
or the string 0, and otherwise looks at the parseFloat outcome (none stands
for NaN). -/
inductive BaseSpeedEdit where
  | emptyOrZero
  | text (parsed : Option ℚ)

/-- Embedding of the Base Speed input onChange handler (controls page,
lines 907 to 917): empty or zero text resets to 0.01; text parsing to a
positive number is clamped to the interval from 0.0001 to 1.0; NaN and
non-positive numbers leave the value unchanged. -/
def baseSpeedOnChange (current : ℚ) (e : BaseSpeedEdit) : ℚ :=
  match e with
  | BaseSpeedEdit.emptyOrZero => 1/100
  | BaseSpeedEdit.text none => current
  | BaseSpeedEdit.text (some value) =>
    if value > 0 then min (max value (1/10000)) 1 else current

/-- Initial baseSpeed state (controls page, line 39). -/
def baseSpeedInit : ℚ := 1/20

/-- Outcome of the TCP position fetch as seen by updateTcpPosition: either
the fetch or JSON decoding threw, or a response arrived with its ok flag,
its success field and its payload vectors. -/
inductive TcpFetchOutcome where
  | thrown
  | response (ok : Bool) (success : Bool) (positionMm rotationDeg : List ℚ)

/-- Rendering of toFixed 1 on an exact rational (JavaScript renders the
nearest double and rounds its decimal expansion; the handlers under study
never inspect this text, so exact rational rounding half away from the
floor is a faithful stand-in for the display string). -/
def toFixed1 (q : ℚ) : String :=
  let n : ℤ := round (q * 10)
  let a : ℕ := n.natAbs
  (if n < 0 then "-" else "") ++ toString (a / 10) ++ "." ++ toString (a % 10)

/-- The position line built in the success branch of updateTcpPosition
(controls page, lines 568 to 570). The backend sends three-element vectors;
other shapes would render the JavaScript text undefined, abbreviated here. -/
def formatTcpPosition (positionMm rotationDeg : List ℚ) : String :=
  match positionMm.map toFixed1, rotationDeg.map toFixed1 with
  | [x, y, z], [rx, ry, rz] =>
    x ++ "," ++ y ++ "," ++ z ++ " | " ++ rx ++ "°," ++ ry ++ "°," ++ rz ++ "°"
  | _, _ => "undefined"

/-- Embedding of updateTcpPosition (controls page, lines 557 to 581),
returning the new robotPosition text. Every outcome is handled: not
connected, thrown error, response without ok status, unsuccessful result,
and success. -/
def updateTcpPosition (robotConnected : Bool) (outcome : TcpFetchOutcome) : String :=
  if !robotConnected then "DISCONNECTED"
  else
    match outcome with
    | TcpFetchOutcome.thrown => "UNKNOWN"
    | TcpFetchOutcome.response ok success positionMm rotationDeg =>
      if ok then
        if success then formatTcpPosition positionMm rotationDeg else "ERROR"
      else "FETCH_ERROR"

end ControlsPage

namespace JointConfigPopup

/-- One joint text field of the popup, abstracted at the parseFloat
boundary: the trimmed text is empty, or nonempty but not a number
(parseFloat NaN), or parses to a number. -/
inductive JointEntry where
  | empty
  | invalid
  | num (q : ℚ)
deriving DecidableEq, Repr

/-- Whether one entry passes the validity test of areAllJointsValid
(JointConfigPopup, lines 71 to 76): trimmed text nonempty and parseFloat
not NaN. -/
def jointEntryValid : JointEntry → Bool
  | JointEntry.num _ => true
  | _ => false

/-- Embedding of areAllJointsValid (JointConfigPopup, lines 71 to 76). -/
def areAllJointsValid (localJoints : List JointEntry) : Bool :=
  localJoints.all jointEntryValid

/-- Numeric value of an entry, as parseFloat of the trimmed text. The
placeholder 0 for empty and invalid entries is never read: every caller
maps entries to numbers only after areAllJointsValid holds. -/
def entryNum : JointEntry → ℚ
  | JointEntry.num q => q
  | _ => 0

/-- Combined state of the popup and the parent page value it updates:
parentJoints is the homeJoints state of the controls page (written through
the onUpdate callback, which is setHomeJoints), localJoints the popup text
fields, isOpen the popup visibility. -/
structure JointConfigState where
  parentJoints : List ℚ
  localJoints : List JointEntry
  isOpen : Bool
deriving DecidableEq, Repr

/-- Embedding of handleJointChange (JointConfigPopup, lines 78 to 94): the
edited field always updates the local copy; the parent is updated through
onUpdate only when every entry of the new local list is valid. -/
def handleJointChange (st : JointConfigState) (index : ℕ) (value : JointEntry) :
    JointConfigState :=
  let newJoints := st.localJoints.set index value
  if areAllJointsValid newJoints then
    { st with localJoints := newJoints
              parentJoints := newJoints.map entryNum }
  else
    { st with localJoints := newJoints }

/-- Embedding of handleSave (JointConfigPopup, lines 96 to 104): when all
entries are valid, push the numeric values to the parent, fire onSave and
close; otherwise do nothing. The returned flag records whether onSave ran. -/
def handleSave (st : JointConfigState) : JointConfigState × Bool :=
  if areAllJointsValid st.localJoints then
    ({ st with parentJoints := st.localJoints.map entryNum
               isOpen := false }, true)
  else (st, false)

/-- Embedding of handleCancel (JointConfigPopup, lines 106 to 110): reset
the local fields from the homeJoints prop (whose current value is the
parent state, rendered to text and parsed back to the same numbers), call
onUpdate with that same prop value, and close. -/
def handleCancel (st : JointConfigState) : JointConfigState :=
  { st with localJoints := st.parentJoints.map JointEntry.num
            parentJoints := st.parentJoints
            isOpen := false }

end JointConfigPopup

open ControlsPage JointConfigPopup

/-- Inserting a key into a sorted list never yields the empty list. -/
theorem insertSorted_ne_nil (x : String) (l : List String) :
    insertSorted x l ≠ [] := by
  cases l with
  | nil => simp [insertSorted]
  | cons y ys => simp only [insertSorted]; split <;> simp

/-- sortKeys returns the empty list exactly on the empty list. -/
theorem sortKeys_eq_nil_iff (l : List String) : sortKeys l = [] ↔ l = [] := by
  cases l with
  | nil => simp [sortKeys]
  | cons x xs =>
    simp only [sortKeys, List.foldr]
    constructor
    · intro h; exact absurd h (insertSorted_ne_nil x _)
    · intro h; cases h

/-- Claim C1: pressing the spacebar always triggers the emergency stop. For
every connection flag, every focused element tag and every keydown event
whose key is the space character, handleKeyDown performs exactly the
stopRobot call: the dispatch happens whether or not the robot is connected
or an input is focused, and no movement-key handling takes place on that
event. -/
theorem spacebar_triggers_stop (robotConnected : Bool) (activeElementTag : String)
    (ev : KeyEvent) (hkey : ev.key = " ") :
    handleKeyDown robotConnected activeElementTag ev = [KeyAction.invokeStopRobot] := by
  unfold handleKeyDown
  rw [hkey]
  rfl

/-- Witness for spacebar_triggers_stop: a space keydown while disconnected,
with an input focused and the repeat flag set, still performs exactly the
stopRobot call. -/
theorem spacebar_triggers_stop_witness :
    handleKeyDown false "INPUT" { key := " ", keyRepeat := true } =
      [KeyAction.invokeStopRobot] :=
  spacebar_triggers_stop false "INPUT" { key := " ", keyRepeat := true } rfl

/-- Claim C3: the emergency stop is idempotent on the page state. stopRobot
updates no state, so a second call (and the built-in redundant second
request 10 ms after the first) yields exactly the state after one call; one
call emits the immediate stop request plus the redundant one. -/
theorem stop_idempotent (s : PageState) :
    stopRobotState (stopRobotState s) = stopRobotState s ∧
    stopRobotState s = s ∧
    stopRobotActions = [Action.stop, Action.stop] :=
  ⟨rfl, rfl, rfl⟩

/-- Claim C6: toggleThermalTracking flips the tracking flag exactly on an
ok response, to the negation of its previous value, and leaves the whole
state unchanged on a failed response. -/
theorem toggle_thermal_flips (s : PageState) :
    (toggleThermalTracking true s).thermalTracking = !s.thermalTracking ∧
    toggleThermalTracking false s = s :=
  ⟨rfl, rfl⟩

/-- Claim C8: updateTcpPosition handles every failure outcome of the TCP
position poll by returning a safe label: DISCONNECTED when the robot is not
connected (whatever the fetch did), UNKNOWN when the fetch threw,
FETCH_ERROR on a response without ok status, and ERROR on an ok response
whose result is unsuccessful. The embedding is a total function, so no
outcome propagates an exception. -/
theorem tcp_poll_never_crashes (outcome : TcpFetchOutcome)
    (success : Bool) (positionMm rotationDeg : List ℚ) :
    updateTcpPosition false outcome = "DISCONNECTED" ∧
    updateTcpPosition true TcpFetchOutcome.thrown = "UNKNOWN" ∧
    updateTcpPosition true (TcpFetchOutcome.response false success positionMm rotationDeg) =
      "FETCH_ERROR" ∧
    updateTcpPosition true (TcpFetchOutcome.response true false positionMm rotationDeg) =
      "ERROR" :=
  ⟨rfl, rfl, rfl, rfl⟩

/-- Claim C10: a successful disconnect deactivates all motion sources.
After disconnectRobot with an ok response and the key-clearing effect that
runs once robotConnected is false, thermal tracking is off, the connection
flag is down and both movement key sets are empty; moreover the clearing
effect empties the key sets in every state whose connection flag is false. -/
theorem disconnect_kills_motion_sources (s t : PageState)
    (ht : t.robotConnected = false) :
    (clearKeysEffect (disconnectRobot true s)).thermalTracking = false ∧
    (clearKeysEffect (disconnectRobot true s)).robotConnected = false ∧
    (clearKeysEffect (disconnectRobot true s)).pressedKeys = [] ∧
    (clearKeysEffect (disconnectRobot true s)).activeSpeedLKeys = [] ∧
    (clearKeysEffect t).pressedKeys = [] ∧
    (clearKeysEffect t).activeSpeedLKeys = [] := by
  refine ⟨rfl, rfl, rfl, rfl, ?_, ?_⟩ <;> simp [clearKeysEffect, ht]

/-- Concrete page state used by witnesses: disconnected, with stale held
keys. -/
def c10State : PageState :=
  { robotConnected := false
    robotStatus := "DISCONNECTED"
    robotPosition := "UNKNOWN"
    thermalTracking := false
    baseSpeed := 1/20
    globalSpeedPercent := 100
    pressedKeys := ["w"]
    activeSpeedLKeys := ["w"]
    processedKeys := []
    mouseHoldDirection := none
    toolAligning := false }

/-- Witness for disconnect_kills_motion_sources at a concrete disconnected
state with stale held keys. -/
theorem disconnect_kills_motion_sources_witness :
    (clearKeysEffect c10State).pressedKeys = [] ∧
    (clearKeysEffect c10State).activeSpeedLKeys = [] :=
  let h := disconnect_kills_motion_sources c10State c10State rfl
  ⟨h.2.2.2.2.1, h.2.2.2.2.2⟩

/-- Claim C5: releasing all manual movement input issues a stop. When the
speedL subset of the pressed keys has become empty while some speedL key
was previously active, the speedL effect runs stopRobot (its requests are
exactly stopRobotActions); releasing a direction button runs stopMouseHold,
which clears the held direction and also emits the stopRobot requests (the
mouse-leave handler is stopRobot itself), and a stop request is among them. -/
theorem release_issues_stop (s : PageState)
    (hcur : s.pressedKeys.filter (fun k => speedLKeys.contains k) = [])
    (hact : s.activeSpeedLKeys ≠ []) :
    (speedLEffect s).actions = stopRobotActions ∧
    stopMouseHold = (none, stopRobotActions) ∧
    Action.stop ∈ stopRobotActions := by
  have hchanged : sortKeys ([] : List String) ≠ sortKeys s.activeSpeedLKeys := by
    show ([] : List String) ≠ sortKeys s.activeSpeedLKeys
    intro h
    exact hact ((sortKeys_eq_nil_iff _).mp h.symm)
  have hempty : s.activeSpeedLKeys.isEmpty = false := by
    cases h : s.activeSpeedLKeys with
    | nil => exact absurd h hact
    | cons a as => rfl
  refine ⟨?_, rfl, by simp [stopRobotActions]⟩
  unfold speedLEffect
  simp only [hcur, hempty]
  rw [if_pos hchanged]
  rfl

/-- Concrete page state for the release witness: no key held any more while
the w key was still active. -/
def c5State : PageState :=
  { robotConnected := true
    robotStatus := "CONNECTED"
    robotPosition := "UNKNOWN"
    thermalTracking := false
    baseSpeed := 1/20
    globalSpeedPercent := 100
    pressedKeys := []
    activeSpeedLKeys := ["w"]
    processedKeys := []
    mouseHoldDirection := none
    toolAligning := false }

/-- Witness for release_issues_stop at the concrete release state. -/
theorem release_issues_stop_witness :
    (speedLEffect c5State).actions = stopRobotActions ∧
    Action.stop ∈ stopRobotActions :=
  let h := release_issues_stop c5State rfl (by decide)
  ⟨h.1, h.2.2⟩

/-- Per-edit preservation of the Base Speed bounds. -/
theorem baseSpeedOnChange_bounds (b : ℚ) (e : BaseSpeedEdit)
    (h1 : 1/10000 ≤ b) (h2 : b ≤ 1) :
    1/10000 ≤ baseSpeedOnChange b e ∧ baseSpeedOnChange b e ≤ 1 := by
  cases e with
  | emptyOrZero => constructor <;> norm_num [baseSpeedOnChange]
  | text parsed =>
    cases parsed with
    | none => exact ⟨h1, h2⟩
    | some value =>
      by_cases hv : value > 0
      · simp only [baseSpeedOnChange, if_pos hv]
        exact ⟨le_min (le_max_right _ _) (by norm_num), min_le_right _ _⟩
      · simp only [baseSpeedOnChange, if_neg hv]
        exact ⟨h1, h2⟩

/-- Bounds after any sequence of Base Speed edits from a bounded start. -/
theorem baseSpeed_fold_bounds (edits : List BaseSpeedEdit) (b : ℚ)
    (h1 : 1/10000 ≤ b) (h2 : b ≤ 1) :
    1/10000 ≤ edits.foldl baseSpeedOnChange b ∧ edits.foldl baseSpeedOnChange b ≤ 1 := by
  induction edits generalizing b with
  | nil => exact ⟨h1, h2⟩
  | cons e rest ih =>
    have h := baseSpeedOnChange_bounds b e h1 h2
    exact ih _ h.1 h.2

/-- Claim C4: after any sequence of edits to the Base Speed input starting
from the initial 0.05, the accepted baseSpeed is strictly positive, at
least 0.0001 and at most 1.0; empty or zero input yields 0.01; and every
moveRobot request carries exactly that bounded baseSpeed as its base_speed
field. -/
theorem base_speed_commands_bounded (edits : List BaseSpeedEdit) (s : PageState)
    (direction : String) (distance : ℚ)
    (hs : s.baseSpeed = edits.foldl baseSpeedOnChange baseSpeedInit) :
    (0 < s.baseSpeed ∧ 1/10000 ≤ s.baseSpeed ∧ s.baseSpeed ≤ 1) ∧
    baseSpeedOnChange s.baseSpeed BaseSpeedEdit.emptyOrZero = 1/100 ∧
    moveRobotActions direction distance s =
      [Action.move direction distance s.globalSpeedPercent s.baseSpeed] := by
  have h := baseSpeed_fold_bounds edits baseSpeedInit
    (by norm_num [baseSpeedInit]) (by norm_num [baseSpeedInit])
  rw [← hs] at h
  exact ⟨⟨lt_of_lt_of_le (by norm_num) h.1, h.1, h.2⟩, rfl, rfl⟩

/-- Witness for base_speed_commands_bounded with the empty edit sequence at
a state holding the initial base speed. -/
theorem base_speed_commands_bounded_witness :
    (0 < c10State.baseSpeed ∧ 1/10000 ≤ c10State.baseSpeed ∧ c10State.baseSpeed ≤ 1) ∧
    baseSpeedOnChange c10State.baseSpeed BaseSpeedEdit.emptyOrZero = 1/100 ∧
    moveRobotActions "z+" (1/10) c10State =
      [Action.move "z+" (1/10) c10State.globalSpeedPercent c10State.baseSpeed] :=
  base_speed_commands_bounded [] c10State "z+" (1/10) rfl

/-- Connected page state with thermal tracking active and the w key just
pressed, used to examine claim C2. -/
def c2State : PageState :=
  { robotConnected := true
    robotStatus := "CONNECTED"
    robotPosition := "UNKNOWN"
    thermalTracking := true
    baseSpeed := 1/20
    globalSpeedPercent := 100
    pressedKeys := ["w"]
    activeSpeedLKeys := []
    processedKeys := []
    mouseHoldDirection := none
    toolAligning := false }

/-- Claim C2 is false on the code: with thermal tracking active and the
robot connected, pressing and holding w makes the speedL effect dispatch a
moveRobot command (z direction, distance 0.1) — the effect never reads
thermalTracking, so tracking does not suppress manual movement. -/
theorem manual_move_during_thermal_counterexample :
    c2State.thermalTracking = true ∧
    c2State.robotConnected = true ∧
    (speedLEffect c2State).actions = [Action.move "z+" (1/10) 100 (1/20)] :=
  ⟨rfl, rfl, rfl⟩

/-- Claim C2 amended: whether a manual movement command is dispatched is
independent of thermalTracking. The speedL effect, the mouse-hold effect
and the keydown handler behave identically for both values of the tracking
flag; the controls page gates manual movement only on robotConnected and
input focus, and does not enforce mutual exclusion with tracking. -/
theorem manual_move_ignores_thermal (s : PageState) (b : Bool) :
    speedLEffect { s with thermalTracking := b } = speedLEffect s ∧
    mouseHoldEffect { s with thermalTracking := b } = mouseHoldEffect s ∧
    handleKeyDown { s with thermalTracking := b }.robotConnected =
      handleKeyDown s.robotConnected :=
  ⟨rfl, rfl, rfl⟩

/-- A well-formed conical spray configuration: one path object with numeric
tilt, rev and cycle fields. -/
def validConicalConfig : ConicalConfig :=
  { trimEmpty := false
    parsed := some (JValue.arr
      [JValue.obj [("tilt", JValue.num 15), ("rev", JValue.num 4),
                   ("cycle", JValue.num (19/400))]]) }

/-- Claim C7 is false as stated: the dispatch is not equivalent to validity
of the configuration alone, because executeConicalSprayPaths also requires
the robot to be connected — on this valid configuration with the robot
disconnected, no request is sent. -/
theorem conical_dispatch_counterexample :
    isValidConicalPaths validConicalConfig = true ∧
    executeConicalSprayPaths false validConicalConfig = [] :=
  ⟨rfl, rfl⟩

/-- Characterisation of isValidSprayParams by the numeric conditions the
claim lists. -/
theorem isValidSprayParams_iff (p : ColdSprayParams) :
    isValidSprayParams p = true ↔
      ∃ acc vel blend iter,
        p.acceleration = some acc ∧ p.velocity = some vel ∧
        p.blendRadius = some blend ∧ p.iterations = some iter ∧
        0 < acc ∧ 0 < vel ∧ 0 ≤ blend ∧ 0 < iter := by
  obtain ⟨acc, vel, blend, iter⟩ := p
  cases acc <;> cases vel <;> cases blend <;> cases iter <;>
    simp [isValidSprayParams, and_assoc]

/-- Claim C7 amended: with the robot connected, executeConicalSprayPaths
dispatches a request if and only if the configuration is valid under
isValidConicalPaths, and with the robot disconnected it never dispatches;
the cold spray execute button is enabled only when isValidSprayParams
holds, which is exactly acceleration and velocity positive, blend radius
nonnegative and iterations positive (all parsing as numbers). -/
theorem spray_config_gating (cfg : ConicalConfig) (p : ColdSprayParams)
    (toolAligning : Bool)
    (henabled : coldSprayButtonDisabled toolAligning p = false) :
    (executeConicalSprayPaths true cfg ≠ [] ↔ isValidConicalPaths cfg = true) ∧
    executeConicalSprayPaths false cfg = [] ∧
    isValidSprayParams p = true ∧
    (∃ acc vel blend iter, p.acceleration = some acc ∧ p.velocity = some vel ∧
      p.blendRadius = some blend ∧ p.iterations = some iter ∧
      0 < acc ∧ 0 < vel ∧ 0 ≤ blend ∧ 0 < iter) := by
  have hp : isValidSprayParams p = true := by
    simp only [coldSprayButtonDisabled, Bool.or_eq_false_iff, Bool.not_eq_eq_eq_not,
      Bool.not_false] at henabled
    exact henabled.2
  refine ⟨?_, rfl, hp, (isValidSprayParams_iff p).mp hp⟩
  by_cases h : isValidConicalPaths cfg = true
  · simp [executeConicalSprayPaths, h]
  · simp [executeConicalSprayPaths, h, Bool.eq_false_iff.mpr h]

/-- Spray parameters that parse and satisfy all numeric conditions. -/
def validSprayParamsEx : ColdSprayParams :=
  { acceleration := some 1
    velocity := some 1
    blendRadius := some 0
    iterations := some 7 }

/-- Witness for spray_config_gating at the concrete valid parameters with
the button enabled. -/
theorem spray_config_gating_witness :
    executeConicalSprayPaths false validConicalConfig = [] ∧
    isValidSprayParams validSprayParamsEx = true :=
  let h := spray_config_gating validConicalConfig validSprayParamsEx false
    (by norm_num [coldSprayButtonDisabled, isValidSprayParams, validSprayParamsEx])
  ⟨h.2.1, h.2.2.1⟩

/-- Popup state whose local entries all hold valid numbers, used to examine
claim C9. -/
def c9Initial : JointConfigState :=
  { parentJoints := [206, -66, 104, 232, 269, 118]
    localJoints := [JointEntry.num 206, JointEntry.num (-66), JointEntry.num 104,
                    JointEntry.num 232, JointEntry.num 269, JointEntry.num 118]
    isOpen := true }

/-- Claim C9 is partly false: after a fully valid edit (joint 1 changed to
100), the edit has already propagated to the parent through onUpdate, and
handleCancel then reissues the current prop value — so the parent stays at
the edited configuration and is not restored to the original homeJoints. -/
theorem cancel_restore_counterexample :
    areAllJointsValid (c9Initial.localJoints.set 0 (JointEntry.num 100)) = true ∧
    (handleCancel (handleJointChange c9Initial 0 (JointEntry.num 100))).parentJoints =
      [100, -66, 104, 232, 269, 118] ∧
    (handleCancel (handleJointChange c9Initial 0 (JointEntry.num 100))).parentJoints ≠
      c9Initial.parentJoints := by
  refine ⟨rfl, rfl, ?_⟩
  decide

/-- Claim C9 amended: the parent homeJoints value changes only through
edits whose resulting entries are all valid numbers (and then to exactly
the parsed values); while any entry is empty or non-numeric,
handleJointChange leaves the parent unchanged and handleSave performs no
update at all; handleCancel resets the local entries from the current
parent configuration and leaves the parent value unchanged — which equals
the original homeJoints only when no fully valid edit happened since the
popup opened. -/
theorem joint_updates_all_or_nothing (st : JointConfigState) (index : ℕ) (value : JointEntry)
    (hinvalid : areAllJointsValid (st.localJoints.set index value) = false)
    (hsaveInvalid : areAllJointsValid st.localJoints = false) :
    (handleJointChange st index value).parentJoints = st.parentJoints ∧
    handleSave st = (st, false) ∧
    (handleCancel st).parentJoints = st.parentJoints ∧
    (handleCancel st).localJoints = st.parentJoints.map JointEntry.num ∧
    (∀ st2 i2 v2, areAllJointsValid (st2.localJoints.set i2 v2) = true →
      (handleJointChange st2 i2 v2).parentJoints =
        (st2.localJoints.set i2 v2).map entryNum) := by
  refine ⟨?_, ?_, rfl, rfl, ?_⟩
  · simp [handleJointChange, hinvalid]
  · simp [handleSave, hsaveInvalid]
  · intro st2 i2 v2 h2
    simp [handleJointChange, h2]

/-- Popup state with an empty first entry, so the entries are not all
valid. -/
def c9Invalid : JointConfigState :=
  { parentJoints := [206, -66, 104, 232, 269, 118]
    localJoints := [JointEntry.empty, JointEntry.num (-66), JointEntry.num 104,
                    JointEntry.num 232, JointEntry.num 269, JointEntry.num 118]
    isOpen := true }

/-- Witness for joint_updates_all_or_nothing at the concrete invalid popup
state. -/
theorem joint_updates_all_or_nothing_witness :
    (handleJointChange c9Invalid 1 JointEntry.invalid).parentJoints =
      c9Invalid.parentJoints ∧
    handleSave c9Invalid = (c9Invalid, false) :=
  let h := joint_updates_all_or_nothing c9Invalid 1 JointEntry.invalid rfl rfl
  ⟨h.1, h.2.1⟩
